import Mathlib

/-!
Verification of the invoice-parsing repository: a shallow embedding of the
text normaliser (`normalize` in `parse_invoices.py` lines 20-45 and its copy
in `ai_invoice_extract.py` lines 18-45), the regex field extractor
(`extract_invoice`, `parse_invoices.py` lines 98-139), the two batch row
loops (`parse_invoices.main` lines 174-188, `ai_invoice_extract.main` lines
159-172) and the CSV-variant extractor (`parse_csv_invoices.extract_invoice`
lines 16-62).  Each Python regex substitution or search is compiled by hand
to an executable scanner with the same leftmost, greedy, backtracking
semantics; machine checks below evaluate them on concrete inputs.
-/

namespace ParseInvoices

/-! ## Character classes (Python `\s`, `[A-Za-z]`, `\d`, `\w`, `DOT_RUN`) -/

/-- Python `\s` on the character set used here: space, tab, newline,
carriage return, vertical tab, form feed. -/
def isWs (c : Char) : Bool :=
  c = ' ' || c = '\t' || c = '\n' || c = '\r' || c = '\u000B' || c = '\u000C'

/-- `[A-Za-z]`. -/
def isAsciiLetter (c : Char) : Bool :=
  ('A' ≤ c && c ≤ 'Z') || ('a' ≤ c && c ≤ 'z')

/-- `[0-9]` (and `\d` on the ASCII texts handled here). -/
def isDigitC (c : Char) : Bool := '0' ≤ c && c ≤ '9'

/-- Python `\w` restricted to the characters occurring in this development:
ASCII letters, digits and the underscore. -/
def isWordChar (c : Char) : Bool := isAsciiLetter c || isDigitC c || c = '_'

/-- The character class of `DOT_RUN = re.compile(r"[.•·∙]{2,}")`. -/
def isDotLike (c : Char) : Bool :=
  c = '.' || c = '•' || c = '·' || c = '∙'

/-! ## The normaliser, pass by pass -/

/-- The source calls `unicodedata.normalize("NFKC", txt)`.  Modelled here
restricted to the code points occurring in this development (printable
ASCII, tab, newline, U+200B, U+00A0, the bullet characters and the euro
sign), on which NFKC maps the no-break space U+00A0 to an ordinary space
and fixes every other character. -/
def nfkc (l : List Char) : List Char :=
  l.map (fun c => if c = '\u00A0' then ' ' else c)

/-- `txt.replace(ZWS, "").replace("\u00A0", " ")` from the source,
with `ZWS = "\u200B"` the zero-width space. -/
def stripInvisible (l : List Char) : List Char :=
  (l.filter (fun c => c ≠ '\u200B')).map (fun c => if c = '\u00A0' then ' ' else c)

/-- `DOT_RUN.sub(" ", txt)`: every maximal run of two or more dot/bullet
characters becomes one space; a lone dot is kept.  Fueled scanner; the fuel
is instantiated with the input length, which bounds the number of steps. -/
def dotRunSub : Nat → List Char → List Char
  | 0, l => l
  | _ + 1, [] => []
  | fuel + 1, c :: rest =>
    if isDotLike c then
      match rest with
      | c2 :: _ =>
        if isDotLike c2 then ' ' :: dotRunSub fuel (rest.dropWhile isDotLike)
        else c :: dotRunSub fuel rest
      | [] => [c]
    else c :: dotRunSub fuel rest

/-- `re.sub(r"(?<=\w)\.(?=\w)", "", txt)`: delete a dot whose neighbours in
the original text are both word characters.  The lookaround reads the
original text, so `prev` carries the previously scanned original character. -/
def interwordDot (prev : Option Char) : List Char → List Char
  | [] => []
  | c :: rest =>
    if c = '.'
        && (match prev with | some p => isWordChar p | none => false)
        && (match rest with | n :: _ => isWordChar n | [] => false)
    then interwordDot (some c) rest
    else c :: interwordDot (some c) rest

/-- Greedy continuation of `(?:[A-Za-z]\s+){2,}[A-Za-z]` after an initial
letter `c`: follows whitespace-separated letters as far as possible and
returns the matched characters (starting with `c`), the number of letters
in the chain, and the unconsumed rest.  Trailing whitespace after the last
letter is not consumed, matching the regex backtracking. -/
def letterChain : Nat → Char → List Char → List Char × Nat × List Char
  | 0, c, l => ([c], 1, l)
  | fuel + 1, c, l =>
    let ws := l.takeWhile isWs
    match ws, l.dropWhile isWs with
    | _ :: _, c2 :: rest2 =>
      if isAsciiLetter c2 then
        let (seg, n, r) := letterChain fuel c2 rest2
        (c :: ws ++ seg, n + 1, r)
      else ([c], 1, l)
    | _, _ => ([c], 1, l)

/-- `re.sub(r"(?:[A-Za-z]\s+){2,}[A-Za-z]", lambda m: m.group(0).replace(" ", ""), txt)`:
at each position try the greedy letter chain; a chain of at least three
letters is a match and is replaced by the matched text with its ASCII
spaces — and only those, not other whitespace — deleted; otherwise the scan
advances one character. -/
def letterJoin : Nat → List Char → List Char
  | 0, l => l
  | _ + 1, [] => []
  | fuel + 1, c :: rest =>
    if isAsciiLetter c then
      let (seg, n, r) := letterChain rest.length c rest
      if 3 ≤ n then seg.filter (fun x => x ≠ ' ') ++ letterJoin fuel r
      else c :: letterJoin fuel rest
    else c :: letterJoin fuel rest

/-- Greedy parse of the repetitions `(?:\d\s+){1,}`: returns the list of
(digit, whitespace-run) pairs and the unconsumed rest. -/
def digitReps : Nat → List Char → List (Char × List Char) × List Char
  | 0, l => ([], l)
  | _ + 1, [] => ([], [])
  | fuel + 1, c :: rest =>
    if isDigitC c then
      let ws := rest.takeWhile isWs
      if ws.isEmpty then ([], c :: rest)
      else
        let (reps, r) := digitReps fuel (rest.dropWhile isWs)
        ((c, ws) :: reps, r)
    else ([], c :: rest)

/-- Flatten the repetition pairs back into the matched characters. -/
def flattenReps (reps : List (Char × List Char)) : List Char :=
  reps.foldr (fun p acc => p.1 :: p.2 ++ acc) []

/-- Attempt of `(?:\d\s+){1,}\d(?![\.\-])` at the head of `l`, including the
Python backtracking over the repetition count: if the lookahead after the
final digit fails, the last repetition gives back its whitespace and its
digit becomes the final `\d` (possible only with at least two repetitions,
and then the lookahead sees that whitespace and always passes). -/
def digitMatch (l : List Char) : Option (List Char × List Char) :=
  let (reps, r) := digitReps l.length l
  if reps.isEmpty then none
  else
    let ok : Bool :=
      match r with
      | c :: rest =>
        isDigitC c && !(match rest with | c2 :: _ => c2 = '.' || c2 = '-' | [] => false)
      | [] => false
    if ok then
      match r with
      | c :: rest => some (flattenReps reps ++ [c], rest)
      | [] => none
    else
      match reps.getLast? with
      | some p =>
        if 2 ≤ reps.length then some (flattenReps reps.dropLast ++ [p.1], p.2 ++ r)
        else none
      | none => none

/-- `re.sub(r"(?<![\d\.\-])(?:\d\s+){1,}\d(?![\.\-])", join_digits, txt)`
where `join_digits` deletes only the ASCII spaces of the match.  The
lookbehind reads the original text, carried in `prev`. -/
def digitJoin : Nat → Option Char → List Char → List Char
  | 0, _, l => l
  | _ + 1, _, [] => []
  | fuel + 1, prev, c :: rest =>
    let prevBlocks : Bool :=
      match prev with
      | some p => isDigitC p || p = '.' || p = '-'
      | none => false
    if isDigitC c && !prevBlocks then
      match digitMatch (c :: rest) with
      | some (seg, r) =>
        seg.filter (fun x => x ≠ ' ') ++ digitJoin fuel (some (seg.getLastD c)) r
      | none => c :: digitJoin fuel (some c) rest
    else c :: digitJoin fuel (some c) rest

/-- `WS_RUN.sub(" ", txt)`: every maximal whitespace run becomes one space. -/
def wsCollapse : Nat → List Char → List Char
  | 0, l => l
  | _ + 1, [] => []
  | fuel + 1, c :: rest =>
    if isWs c then ' ' :: wsCollapse fuel (rest.dropWhile isWs)
    else c :: wsCollapse fuel rest

/-- Python `str.strip()`: drop whitespace from both ends. -/
def stripEnds (l : List Char) : List Char :=
  ((l.dropWhile isWs).reverse.dropWhile isWs).reverse

/-- `normalize` from `parse_invoices.py` lines 20-45.  The copy in
`ai_invoice_extract.py` lines 18-45 has the same passes, character classes
and replacement functions, so one embedding serves both.  The leftover
interactive-debugger statements in the repository do not change this data
flow. -/
def normalizeL (l : List Char) : List Char :=
  if l.isEmpty then []
  else
    let t1 := stripInvisible (nfkc l)
    let t2 := dotRunSub t1.length t1
    let t3 := interwordDot none t2
    let t4 := letterJoin t3.length t3
    let t5 := digitJoin t4.length none t4
    stripEnds (wsCollapse t5.length t5)

/-- `normalize` on `String`. -/
def normalize (s : String) : String := ⟨normalizeL s.data⟩

/-- The guard `if not txt: return ""` also accepts a `None` argument in
Python; `null` input is modelled as `Option`. -/
def normalizeOpt : Option String → String
  | none => ""
  | some s => normalize s

/-! ## The `PATTERNS` rules of `parse_invoices.py` (lines 50-94), compiled -/

/-- Case-insensitive literal match (`re.I`): consume the pattern characters,
return the rest of the input. -/
def matchCI : List Char → List Char → Option (List Char)
  | [], l => some l
  | _ :: _, [] => none
  | p :: ps, c :: cs => if c.toLower = p then matchCI ps cs else none

/-- `[:\s]*`, greedy. -/
def skipColonWs (l : List Char) : List Char :=
  l.dropWhile (fun c => c = ':' || isWs c)

/-- `pattern.search(text)`: try an attempt function at every position,
leftmost match first. -/
def searchA {α : Type} (att : List Char → Option α) : Nat → List Char → Option α
  | 0, _ => none
  | fuel + 1, l =>
    match att l with
    | some a => some a
    | none =>
      match l with
      | [] => none
      | _ :: rest => searchA att fuel rest

/-- `pattern.search(text)` with the fuel instantiated. -/
def search {α : Type} (att : List Char → Option α) (l : List Char) : Option α :=
  searchA att (l.length + 1) l

/-- Attempt of `Invoice\s*number[:\s]*([0-9]{6,})` (case-insensitive,
lines 52-53) at the head of the input; the digit group is greedy. -/
def tryInvoiceNumber (l : List Char) : Option String := do
  let r1 ← matchCI "invoice".data l
  let r2 ← matchCI "number".data (r1.dropWhile isWs)
  let r3 := skipColonWs r2
  let ds := r3.takeWhile isDigitC
  if 6 ≤ ds.length then some ⟨ds⟩ else none

/-- One date token `[0-9]{1,2}\s+[A-Za-z]{3}\s+\d{4}` of the
`invoice_date` pattern (lines 56-57): returns the captured characters and
the rest.  A digit run longer than two or a letter run other than exactly
three makes the fixed-width pieces fail, as regex backtracking would. -/
def tryDateToken (l : List Char) : Option (List Char × List Char) :=
  let ds := l.takeWhile isDigitC
  if ds.length = 1 || ds.length = 2 then
    let r1 := l.drop ds.length
    let ws1 := r1.takeWhile isWs
    if ws1.isEmpty then none
    else
      let r2 := r1.dropWhile isWs
      let ls := r2.takeWhile isAsciiLetter
      if ls.length = 3 then
        let r3 := r2.drop 3
        let ws2 := r3.takeWhile isWs
        if ws2.isEmpty then none
        else
          let r4 := r3.dropWhile isWs
          let ys := r4.takeWhile isDigitC
          if 4 ≤ ys.length then some (ds ++ ws1 ++ ls ++ ws2 ++ ys.take 4, r4.drop 4)
          else none
      else none
  else none

/-- Attempt of the `invoice_date` pattern
`Summary\s+for\s+(date)\s*-\s*(date)` (case-insensitive, lines 56-57):
returns the two capture groups. -/
def trySummary (l : List Char) : Option (String × String) := do
  let r1 ← matchCI "summary".data l
  if (r1.takeWhile isWs).isEmpty then none
  else
    let r2 ← matchCI "for".data (r1.dropWhile isWs)
    if (r2.takeWhile isWs).isEmpty then none
    else
      let (g1, r3) ← tryDateToken (r2.dropWhile isWs)
      match r3.dropWhile isWs with
      | '-' :: r5 =>
        let (g2, _) ← tryDateToken (r5.dropWhile isWs)
        some (⟨g1⟩, ⟨g2⟩)
      | _ => none

/-- Attempt of `Billing\s*ID[:\s]*([\d-]{6,})` (case-insensitive,
lines 60-61). -/
def tryBillingId (l : List Char) : Option String := do
  let r1 ← matchCI "billing".data l
  let r2 ← matchCI "id".data (r1.dropWhile isWs)
  let r3 := skipColonWs r2
  let ds := r3.takeWhile (fun c => isDigitC c || c = '-')
  if 6 ≤ ds.length then some ⟨ds⟩ else none

/-- The token class `[A-Za-z0-9.-]` of the `domain` pattern. -/
def isDomChar (c : Char) : Bool :=
  isAsciiLetter c || isDigitC c || c = '.' || c = '-'

/-- Backtracking of `([A-Za-z0-9.-]+\.[A-Za-z]{2,})` over a maximal token
run: the greedy `+` gives characters back from the right, so the matched
dot is the rightmost dot of the run that is preceded by at least one token
character and followed by at least two letters; the final letter group is
greedy. -/
def lastDotSplit (run : List Char) : Option (List Char) :=
  (List.range run.length).reverse.findSome? fun k =>
    if run.getD k ' ' = '.' && 1 ≤ k then
      let ls := (run.drop (k + 1)).takeWhile isAsciiLetter
      if 2 ≤ ls.length then some (run.take k ++ '.' :: ls) else none
    else none

/-- Attempt of `Domain\s*name[:\s]*([A-Za-z0-9.-]+\.[A-Za-z]{2,})`
(case-insensitive, lines 64-65). -/
def tryDomain (l : List Char) : Option String := do
  let r1 ← matchCI "domain".data l
  let r2 ← matchCI "name".data (r1.dropWhile isWs)
  let run := (skipColonWs r2).takeWhile isDomChar
  (lastDotSplit run).map fun cap => (⟨cap⟩ : String)

/-- Attempt of the `total_eur` pattern
`Total\s+in\s+EUR[:\s]*€?\s*([0-9]+[.,][0-9]{2})` (case-insensitive,
lines 76-77): returns the capture and the rest after the match. -/
def tryTotal (l : List Char) : Option (String × List Char) := do
  let r1 ← matchCI "total".data l
  if (r1.takeWhile isWs).isEmpty then none
  else
    let r2 ← matchCI "in".data (r1.dropWhile isWs)
    if (r2.takeWhile isWs).isEmpty then none
    else
      let r3 ← matchCI "eur".data (r2.dropWhile isWs)
      let r4 := skipColonWs r3
      let r5 := match r4 with | '€' :: t => t | _ => r4
      let r6 := r5.dropWhile isWs
      let ds := r6.takeWhile isDigitC
      if ds.isEmpty then none
      else
        match r6.drop ds.length with
        | sep :: rest =>
          if sep = '.' || sep = ',' then
            let f2 := rest.takeWhile isDigitC
            if 2 ≤ f2.length then some (⟨ds ++ sep :: f2.take 2⟩, rest.drop 2)
            else none
          else none
        | [] => none

/-- `PATTERNS["total_eur"].findall(text)`: all non-overlapping matches,
leftmost first, each contributing its capture group. -/
def findallTotalA : Nat → List Char → List String
  | 0, _ => []
  | _ + 1, [] => []
  | fuel + 1, c :: rest =>
    match tryTotal (c :: rest) with
    | some (cap, r) => cap :: findallTotalA fuel r
    | none => findallTotalA fuel rest

/-- `PATTERNS["total_eur"].findall` on a string. -/
def total_eur_findall (text : String) : List String :=
  findallTotalA (text.data.length + 1) text.data

/-- `int` value of a digit run. -/
def digitsToNat (l : List Char) : Nat :=
  l.foldl (fun a c => 10 * a + (c.toNat - '0'.toNat)) 0

/-- `float(t.replace(",", "."))` applied to a capture of the money pattern
`[0-9]+[.,][0-9]{2}` (line 135): the digits before the separator, then
exactly two fraction digits; the decimal value is represented exactly in
`ℚ`. -/
def ratOfAmount (s : String) : ℚ :=
  (digitsToNat (s.data.takeWhile isDigitC) : ℚ) +
    (digitsToNat (s.data.drop ((s.data.takeWhile isDigitC).length + 1)) : ℚ) / 100

/-- Lines 133-135 as the specification reads them, with the key the source
actually defines (`"total_eur"`, lines 76-77) in place of the dangling
`"totals"`: all matches of the total pattern, last one, comma separator
mapped to a decimal point, numeric value. -/
def total_eur_lastOccurrence (text : String) : Option ℚ :=
  (total_eur_findall text).getLast?.map ratOfAmount

/-! ## `extract_invoice` of `parse_invoices.py` (lines 98-139) -/

/-- The keys of the `PATTERNS` dict (lines 50-94). -/
def PATTERNS_keys : List String :=
  ["invoice_number", "invoice_date", "billing_id", "domain", "subtotal",
   "vat", "total_eur", "supplier", "supplier_vat", "customer_name",
   "customer_domain"]

/-- Membership test backing the dict subscript `PATTERNS[k]`. -/
def patternsHasKey (k : String) : Bool := PATTERNS_keys.contains k

/-- Equality of collaborator outcomes is decidable componentwise. -/
instance {ε α : Type} [DecidableEq ε] [DecidableEq α] : DecidableEq (Except ε α) := fun x y =>
  match x, y with
  | Except.ok a, Except.ok b =>
    if h : a = b then Decidable.isTrue (h ▸ rfl)
    else Decidable.isFalse fun he => h (Except.ok.inj he)
  | Except.error e, Except.error f =>
    if h : e = f then Decidable.isTrue (h ▸ rfl)
    else Decidable.isFalse fun he => h (Except.error.inj he)
  | Except.ok _, Except.error _ => Decidable.isFalse fun he => Except.noConfusion he
  | Except.error _, Except.ok _ => Decidable.isFalse fun he => Except.noConfusion he

/-- The record filled by `extract_invoice` (lines 105-114). -/
structure InvoiceData where
  invoice_number : Option String
  invoice_date : Option String
  billing_id : Option String
  domain : Option String
  total_eur : Option ℚ
  supplier : Option String
  error : Option String
deriving Repr, DecidableEq

/-- `extract_invoice` (lines 98-139) on the raw text returned by the
text-extraction collaborator for the document.  The leftover interactive
breakpoint at line 116 does not change the data flow.  The subscript
`PATTERNS["totals"]` at line 133 raises `KeyError` because `"totals"` is
not a key of `PATTERNS`, so the function always fails after filling the
first four fields; the statements of lines 134-139 are unreachable, which
is why the success branch below never executes. -/
def extract_invoice (raw : String) : Except String InvoiceData :=
  let text := (normalize raw).data
  let d : InvoiceData :=
    { invoice_number := search tryInvoiceNumber text
      invoice_date := (search trySummary text).map fun p => p.1 ++ " - " ++ p.2
      billing_id := search tryBillingId text
      domain := search tryDomain text
      total_eur := none
      supplier := none
      error := none }
  if patternsHasKey "totals" then Except.ok d
  else Except.error "KeyError: totals"

/-! ## The batch row loops -/

/-- Per-document pipeline of `parse_invoices.main` (lines 174-177): the
text-extraction collaborator outcome for the document is given, then
`extract_invoice` runs on it.  There is no exception handling — the
handler at lines 178-188 is commented out — so either failure propagates. -/
def runDoc (collab : Except String String) : Except String InvoiceData :=
  collab.bind extract_invoice

/-- The row loop of `parse_invoices.main`: rows are appended one by one and
any per-document exception propagates, aborting the whole batch with no
rows at all. -/
def mainRows (docs : List (Except String String)) : Except String (List InvoiceData) :=
  docs.mapM runDoc

/-- The JSON object the schema-constrained model collaborator returns for
one document (`INVOICE_SCHEMA`, `ai_invoice_extract.py` lines 65-88), after
`extract_with_openai` overwrote `source_file` (line 129).  Money amounts
are represented exactly in `ℚ`. -/
structure AIData where
  supplier : Option String
  supplier_vat : Option String
  invoice_number : Option String
  invoice_date_start : Option String
  invoice_date_end : Option String
  billing_id : Option String
  domain : Option String
  subtotal_eur : Option ℚ
  vat_percent : Option String
  vat_amount_eur : Option ℚ
  total_eur : Option ℚ
  currency : String
  source_file : String
deriving Repr, DecidableEq

/-- A row written by `ai_invoice_extract.main`: the schema fields plus the
`error` column of the output table (lines 174-178). -/
structure AIRow where
  supplier : Option String
  supplier_vat : Option String
  invoice_number : Option String
  invoice_date_start : Option String
  invoice_date_end : Option String
  billing_id : Option String
  domain : Option String
  subtotal_eur : Option ℚ
  vat_percent : Option String
  vat_amount_eur : Option ℚ
  total_eur : Option ℚ
  currency : String
  source_file : String
  error : Option String
deriving Repr, DecidableEq

/-- Success row: the model payload with `error` defaulted to null by
`r.setdefault(k, None)` (lines 183-185). -/
def rowOfData (d : AIData) : AIRow :=
  { supplier := d.supplier
    supplier_vat := d.supplier_vat
    invoice_number := d.invoice_number
    invoice_date_start := d.invoice_date_start
    invoice_date_end := d.invoice_date_end
    billing_id := d.billing_id
    domain := d.domain
    subtotal_eur := d.subtotal_eur
    vat_percent := d.vat_percent
    vat_amount_eur := d.vat_amount_eur
    total_eur := d.total_eur
    currency := d.currency
    source_file := d.source_file
    error := none }

/-- Failure row built in the `except` arm of `ai_invoice_extract.main`
(lines 164-171): every field null except the currency constant, the source
file and the diagnostic. -/
def errorRow (f : String) (e : String) : AIRow :=
  { supplier := none, supplier_vat := none, invoice_number := none
    invoice_date_start := none, invoice_date_end := none, billing_id := none
    domain := none, subtotal_eur := none, vat_percent := none
    vat_amount_eur := none, total_eur := none, currency := "EUR"
    source_file := f, error := some e }

/-- The row loop of `ai_invoice_extract.main` (lines 159-172): each
document is a source path together with the outcome of its per-document
pipeline (pdf extraction, normalisation and model call, all inside the
`try`); the `except` arm converts a failure into an error row, and a row is
appended either way. -/
def aiMainRows (docs : List (String × Except String AIData)) : List AIRow :=
  docs.map fun d =>
    match d.2 with
    | Except.ok a => rowOfData a
    | Except.error e => errorRow d.1 e

/-! ## `extract_invoice` of `parse_csv_invoices.py` (lines 16-62) -/

/-- The record of `parse_csv_invoices.extract_invoice` (lines 18-26): its
seven keys are fixed there and no other key is ever added. -/
structure CsvRecord where
  file : String
  invoice_number : Option String
  invoice_date : Option String
  billing_id : Option String
  invoice_amount : Option String
  domain : Option String
  error : Option String
deriving Repr, DecidableEq

/-- Python `str.strip()` on a cell. -/
def stripCell (s : String) : String := ⟨stripEnds s.data⟩

/-- Python `str.lower()` on the ASCII cells handled here. -/
def lowerStr (s : String) : String := ⟨s.data.map Char.toLower⟩

/-- `not row or all(not c.strip() for c in row)` (line 35). -/
def rowIsBlank (row : List String) : Bool :=
  row.isEmpty || row.all fun c => (stripCell c).isEmpty

/-- The `section` variable of the row loop. -/
inductive CsvSection
  | meta
  | items
deriving Repr, DecidableEq

/-- The row loop of `parse_csv_invoices.extract_invoice` (lines 33-58):
a blank row switches to the items section and clears the header flag; a
meta row updates the field its first cell names; in the items section the
first row is the header and is skipped, and the first later row with a
non-empty first cell sets `domain` and breaks out of the loop. -/
def csvLoop : CsvSection → Bool → CsvRecord → List (List String) → CsvRecord
  | _, _, d, [] => d
  | sect, hdr, d, row :: rest =>
    if rowIsBlank row then csvLoop CsvSection.items false d rest
    else
      match sect with
      | CsvSection.meta =>
        let key := lowerStr (stripCell (row.headD ""))
        let value := match row with | _ :: v :: _ => stripCell v | _ => ""
        let d2 :=
          if key = "invoice number" then { d with invoice_number := some value }
          else if key = "invoice date" then { d with invoice_date := some value }
          else if key = "billing id" then { d with billing_id := some value }
          else if key = "invoice amount" then { d with invoice_amount := some value }
          else d
        csvLoop CsvSection.meta hdr d2 rest
      | CsvSection.items =>
        if hdr = false then csvLoop CsvSection.items true d rest
        else if (stripCell (row.headD "")).isEmpty then csvLoop CsvSection.items hdr d rest
        else { d with domain := some (stripCell (row.headD "")) }

/-- `parse_csv_invoices.extract_invoice` (lines 16-62).  The file-reading
collaborator outcome — the parsed CSV rows, or a failure such as an
unreadable file — is passed in; the `except` arm (lines 59-60) converts any
failure into the `error` field.  The record starts with `file` set to the
input path and exactly the seven keys of lines 18-26; the loop only ever
rewrites existing keys, so the returned record always has exactly those
keys, which the structure type fixes. -/
def extract_invoice_csv (csv_path : String)
    (reader : Except String (List (List String))) : CsvRecord :=
  let d : CsvRecord :=
    { file := csv_path, invoice_number := none, invoice_date := none
      billing_id := none, invoice_amount := none, domain := none, error := none }
  match reader with
  | Except.ok rows => csvLoop CsvSection.meta false d rows
  | Except.error e => { d with error := some ("parse_error: " ++ e) }

/-- The row loop never touches the `file` field. -/
theorem csvLoop_file (rows : List (List String)) :
    ∀ sect hdr d, (csvLoop sect hdr d rows).file = d.file := by
  induction rows with
  | nil => intro sect hdr d; rfl
  | cons row rest ih =>
    intro sect hdr d
    cases sect with
    | meta =>
      rw [csvLoop.eq_def]
      dsimp only
      split_ifs <;> simp only [ih]
    | items =>
      rw [csvLoop.eq_def]
      dsimp only
      split_ifs <;> simp only [ih]

/-! ## Demonstration inputs -/

/-- A text with two total lines: amounts 10,00 then 6,90. -/
def twoTotalsText : String := "Total in EUR: 10,00 Total in EUR: 6,90"

/-- A text with a date range and a total line. -/
def summaryText : String := "Summary for 1 Jun 2024 - 30 Jun 2024 Total in EUR: 6,90"

/-- A text with no occurrence of the total pattern. -/
def noTotalText : String := "Invoice number: 123456"

/-- A fully populated model payload for a first document.  The amounts are
whole-euro values so that every field evaluates by kernel reduction. -/
def demoAI : AIData :=
  { supplier := some "Google Workspace", supplier_vat := some "IE123456789"
    invoice_number := some "5011670000", invoice_date_start := some "1 Jun 2024"
    invoice_date_end := some "30 Jun 2024", billing_id := some "5818-9541-5911"
    domain := some "dergatsjev.be", subtotal_eur := some 7
    vat_percent := some "0%", vat_amount_eur := some 0
    total_eur := some 7, currency := "EUR", source_file := "a.pdf" }

/-- A fully populated model payload for a third document. -/
def demoAI2 : AIData :=
  { supplier := some "Google Cloud EMEA Limited", supplier_vat := none
    invoice_number := some "5011670001", invoice_date_start := some "1 Jul 2024"
    invoice_date_end := some "31 Jul 2024", billing_id := none
    domain := some "example.org", subtotal_eur := none
    vat_percent := none, vat_amount_eur := none
    total_eur := some 12, currency := "EUR", source_file := "c.pdf" }

/-! ## The claims -/

/-- **C1** On a normalized text with total amounts 10,00 then 6,90 the
last-occurrence reading of the total pattern the source defines
(`PATTERNS["total_eur"]`) indeed yields 6.90, as the claim states; but
`extract_invoice` subscripts the undefined key `PATTERNS["totals"]` at
line 133, so it raises `KeyError` and never sets `total_eur` on any input:
the claimed behaviour is the evident intent and the dangling key a slip. -/
theorem c1_total_last_occurrence_keyerror :
    total_eur_findall (normalize twoTotalsText) = ["10,00", "6,90"] ∧
    total_eur_lastOccurrence (normalize twoTotalsText) = some (69 / 10 : ℚ) ∧
    extract_invoice twoTotalsText = Except.error "KeyError: totals" := by
  refine ⟨by decide, ?_, by decide⟩
  show (total_eur_findall (normalize twoTotalsText)).getLast?.map ratOfAmount = _
  have h : total_eur_findall (normalize twoTotalsText) = ["10,00", "6,90"] := by decide
  rw [h]
  show some (ratOfAmount "6,90") = some (69 / 10 : ℚ)
  have h1 : "6,90".data.takeWhile isDigitC = ['6'] := by decide
  have h3 : "6,90".data.drop 2 = ['9', '0'] := by decide
  have h4 : digitsToNat ['6'] = 6 := by decide
  have h5 : digitsToNat ['9', '0'] = 90 := by decide
  rw [ratOfAmount, h1]
  norm_num [h3, h4, h5]

/-- **C2** The strict-decimal token `6.90` does not survive `normalize`:
the inter-word dot removal pass deletes its separator, yielding `690`, even
though the docstring of the `ai_invoice_extract.py` copy promises that
decimals such as 6.90 are left untouched.  A comma-separated decimal kept
apart from other digits does survive. -/
theorem c2_decimal_not_preserved :
    normalize "6.90" = "690" ∧
    normalize "6,90" = "6,90" ∧
    ("690" : String) ≠ "6.90" := by decide

/-- **C3** `normalize` is not idempotent: the letter-rejoin replacement
deletes only ASCII spaces while its pattern matches any whitespace
separators, so newline-separated letters are not joined on the first run —
that run merely collapses the newlines to spaces — and the second run then
joins them. -/
theorem c3_normalize_not_idempotent :
    normalize "I\nn\nv" = "I n v" ∧
    normalize (normalize "I\nn\nv") = "Inv" ∧
    normalize (normalize "I\nn\nv") ≠ normalize "I\nn\nv" := by decide

/-- **C4** The `ai_invoice_extract.main` row loop isolates a per-document
failure: a batch of three documents whose second raises still yields
exactly three rows, the second carrying the diagnostic in `error` and the
first and third fully populated — and one row per document in general.
The `parse_invoices.main` loop, whose handler is commented out, aborts the
whole batch instead, yielding no rows. -/
theorem c4_batch_isolation :
    (∀ docs, (aiMainRows docs).length = docs.length) ∧
    aiMainRows
        [("a.pdf", Except.ok demoAI), ("b.pdf", Except.error "model failure"),
          ("c.pdf", Except.ok demoAI2)]
      = [rowOfData demoAI, errorRow "b.pdf" "model failure", rowOfData demoAI2] ∧
    (rowOfData demoAI).error = none ∧
    (errorRow "b.pdf" "model failure").error = some "model failure" ∧
    mainRows [Except.ok twoTotalsText, Except.error "open error", Except.ok twoTotalsText]
      = Except.error "KeyError: totals" := by
  refine ⟨fun docs => ?_, by decide, by decide, by decide, by decide⟩
  simp [aiMainRows]

/-- **C5** On a normalized text with no occurrence of the total pattern the
pattern finds nothing, and the first-occurrence fields are still extracted
(here `invoice_number`); but instead of surfacing the missing required
field as an error record, `extract_invoice` raises `KeyError` on the
undefined key `PATTERNS["totals"]` before ever testing the total pattern,
and the driver has no per-document handler to convert it into a record. -/
theorem c5_missing_total_keyerror :
    total_eur_findall (normalize noTotalText) = [] ∧
    search tryInvoiceNumber (normalize noTotalText).data = some "123456" ∧
    extract_invoice noTotalText = Except.error "KeyError: totals" := by decide

/-- **C6 counterexample** A digit run immediately preceded by a comma is
NOT left untouched, contrary to the claim: the digit-rejoin guard classes
`[\d\.\-]` and `[\.\-]` do not contain the comma, so `",1 2"` is joined to
`",12"`. -/
theorem c6_comma_not_guarded :
    normalize ",1 2" = ",12" ∧ (",12" : String) ≠ ",1 2" := by decide

/-- **C6 amended** The digit-rejoin pass joins runs of whitespace-separated
single digits (`"5 0 1 1 6 7"` to `"501167"`), and a run immediately
adjacent to a `.` or `-` — or preceded by a digit — is left untouched, so
the decimal context of `"6 . 9 0"` is not collapsed into one integer; but a
`,` is not part of the guard and does not protect an adjacent run. -/
theorem c6_digit_rejoin_guard :
    normalize "5 0 1 1 6 7" = "501167" ∧
    normalize "6 . 9 0" = "6 . 90" ∧
    normalize ".1 2" = ".1 2" ∧
    normalize "-1 2" = "-1 2" ∧
    normalize "1 2-" = "1 2-" ∧
    normalize "12 3" = "12 3" ∧
    normalize ",1 2" = ",12" := by decide

/-- **C7 counterexample** The letter-rejoin pass does not merge only runs
of isolated single letters: the trailing letter of a longer word can join
the run, so `"ab c d"` — which contains no run of two-or-more single
letters followed by one more letter — is still merged to `"abcd"`. -/
theorem c7_letter_rejoin_beyond_single_letters :
    normalize "ab c d" = "abcd" ∧ ("abcd" : String) ≠ "ab c d" := by decide

/-- **C7 amended** The letter-rejoin pass deletes the spaces inside every
leftmost greedy match of at least two letter-plus-whitespace repetitions
followed by one more letter: `normalize "I n v o i c e" = "Invoice"`, at
least three letters are needed so an isolated pair of single letters or a
pair of two-letter words is never merged; but the matched letters need not
be isolated single letters separated by single spaces — a word-final letter
can join the run and the separators may be wider whitespace. -/
theorem c7_letter_rejoin :
    normalize "I n v o i c e" = "Invoice" ∧
    normalize "a b" = "a b" ∧
    normalize "is it" = "is it" ∧
    normalize "ab c d" = "abcd" ∧
    normalize "a  b  c" = "abc" := by decide

/-- **C8** On a normalized text matching the date-range rule the two
capture groups are found and their combination with the literal separator
is `"1 Jun 2024 - 30 Jun 2024"`, exactly the value line 123 stores in the
record; but `extract_invoice` then raises `KeyError` on the undefined key
`PATTERNS["totals"]`, so extraction never produces the record carrying
that date field. -/
theorem c8_date_range_combined_keyerror :
    search trySummary (normalize summaryText).data = some ("1 Jun 2024", "30 Jun 2024") ∧
    ((search trySummary (normalize summaryText).data).map fun p => p.1 ++ " - " ++ p.2)
      = some "1 Jun 2024 - 30 Jun 2024" ∧
    extract_invoice summaryText = Except.error "KeyError: totals" := by decide

/-- **C9** `normalize` never fails: the embedding is a total pure function
by construction — every pass is a terminating scanner — and the guard at
lines 21-22 maps empty and `null` input to the empty string. -/
theorem c9_normalize_empty_null :
    normalizeOpt none = "" ∧ normalizeOpt (some "") = "" ∧ normalize "" = "" := by decide

/-- **C10** The CSV-variant `extract_invoice` is total at its public
interface: for every path and every outcome of the file-reading
collaborator it returns a record — whose keys are exactly the seven of
lines 18-26, fixed by the `CsvRecord` type — with `file` always the input
path, and any reader failure converted into a populated `parse_error`
diagnostic in `error`. -/
theorem c10_csv_extract_total (p : String) (r : Except String (List (List String))) :
    (extract_invoice_csv p r).file = p ∧
    (∀ e, r = Except.error e →
      (extract_invoice_csv p r).error = some ("parse_error: " ++ e)) := by
  constructor
  · cases r with
    | ok rows =>
      show (csvLoop CsvSection.meta false _ rows).file = p
      rw [csvLoop_file]
    | error e => rfl
  · intro e he
    subst he
    rfl

/-- Witness for **C10** at a concrete path and a concrete reader failure. -/
theorem c10_csv_extract_total_witness :
    (extract_invoice_csv "a.csv" (Except.error "boom")).file = "a.csv" ∧
    (extract_invoice_csv "a.csv" (Except.error "boom")).error = some "parse_error: boom" := by
  have h := c10_csv_extract_total "a.csv" (Except.error "boom")
  exact ⟨h.1, h.2 "boom" rfl⟩

end ParseInvoices
